/-
Verification of the Astro task-orchestration and ReAct core.

Shallow embedding of the Python sources:
  * src/src/agents/task.py          (TaskStatus, TaskResult, Task)
  * src/src/agents/orchestrator.py  (SubAgent.execute, AgentOrchestrator)
  * src/src/llm/provider.py         (LLMProvider.complete_with_retry)
  * src/src/llm/factory.py          (MultiProviderRouter._fallback_complete)
  * src/vibe_shell.py               (sandbox tools, fallback chain, ReAct loop)

Pure data and control flow are translated directly; external effects
(LLM network calls, the file system, subprocesses) are passed in as
explicit parameters or association-list states.  Wall-clock timestamps
(created_at / started_at / completed_at) and float durations are omitted:
no verified property depends on them.
-/
import Mathlib

set_option autoImplicit false
set_option maxRecDepth 4096

namespace Astro

/-! ## Task model (src/src/agents/task.py) -/

/-- `TaskStatus` enum from task.py. -/
inductive TaskStatus where
  | pending
  | running
  | completed
  | failed
  | cancelled
deriving DecidableEq, Repr

/-- `TaskResult` dataclass from task.py: success flag, opaque output,
optional error string, metadata map.  The metadata map is modelled as a
string-keyed association list (the code only stores small scalar values;
we render them as strings). -/
structure TaskResult where
  success : Bool
  output : Option String
  error : Option String
  metadata : List (String × String)
deriving DecidableEq, Repr

/-- Classmethod `TaskResult.ok(output, **metadata)`. -/
def TaskResult.mkOk (output : String) (metadata : List (String × String)) : TaskResult :=
  { success := true, output := some output, error := none, metadata := metadata }

/-- Classmethod `TaskResult.failure(error_msg, **metadata)`. -/
def TaskResult.mkFailure (error_msg : String) (metadata : List (String × String)) : TaskResult :=
  { success := false, output := none, error := some error_msg, metadata := metadata }

/-- `Task` dataclass from task.py.  Timestamps and `max_duration`
(wall-clock floats) are omitted; `inputs` values are rendered as strings. -/
structure Task where
  id : String
  description : String
  agent_type : String
  inputs : List (String × String)
  status : TaskStatus
  result : Option TaskResult
  parent_id : Option String
  dependencies : List String
deriving DecidableEq, Repr

/-- `Task.create`: a freshly created task is Pending with no result. -/
def Task.create (id description agent_type : String)
    (inputs : List (String × String)) (parent_id : Option String)
    (dependencies : List String) : Task :=
  { id := id, description := description, agent_type := agent_type,
    inputs := inputs, status := TaskStatus.pending, result := none,
    parent_id := parent_id, dependencies := dependencies }

/-- Property `Task.is_ready` from task.py: the body checks only
`status == PENDING`; despite its docstring it does not inspect the
dependency list. -/
def Task.is_ready (t : Task) : Bool :=
  t.status == TaskStatus.pending

/-- Property `Task.is_done` from task.py: terminal in any of the three
terminal statuses (completed, failed, or cancelled). -/
def Task.is_done (t : Task) : Bool :=
  t.status == TaskStatus.completed || t.status == TaskStatus.failed
    || t.status == TaskStatus.cancelled

/-! ## Python class-attribute semantics for `TaskResult`
(orchestrator.py calls `TaskResult.error(...)`, which is not a method). -/

/-- A Python error escaping a call. -/
inductive PyError where
  | typeError (msg : String)
  | attributeError (msg : String)
  | exception (msg : String)
deriving DecidableEq, Repr

/-- What a class-attribute lookup on the `TaskResult` class can yield:
a callable classmethod, or a plain (non-callable) dataclass field default. -/
inductive TRClassAttr where
  | callableMethod (build : String → List (String × String) → TaskResult)
  | noneDefault

/-- Class-attribute lookup on `TaskResult` as the Python runtime performs it.
`ok` and `failure` are classmethods; the dataclass leaves the field default
of `error: Optional[str] = None` on the class, so `TaskResult.error`
resolves to the (non-callable) value `None`. -/
def TaskResult.classAttr : String → Option TRClassAttr
  | "ok" => some (TRClassAttr.callableMethod TaskResult.mkOk)
  | "failure" => some (TRClassAttr.callableMethod TaskResult.mkFailure)
  | "error" => some TRClassAttr.noneDefault
  | _ => none

/-- Calling `TaskResult.<attr>(arg, **metadata)`: invoking the field default
`None` raises `TypeError`, exactly what CPython does for
`TaskResult.error("...")`. -/
def TaskResult.callClassAttr (attr : String) (arg : String)
    (metadata : List (String × String)) : Except PyError TaskResult :=
  match TaskResult.classAttr attr with
  | some (TRClassAttr.callableMethod build) => Except.ok (build arg metadata)
  | some TRClassAttr.noneDefault =>
      Except.error (PyError.typeError "NoneType object is not callable")
  | none => Except.error (PyError.attributeError attr)

/-! ## SubAgent.execute (src/src/agents/orchestrator.py, lines 22-67) -/

/-- Behaviour of the sub-agent's `llm_provider` on this call:
absent (`None` in Python), a successful completion, or a raised exception. -/
inductive ProviderOutcome where
  | absent
  | completes (content : String)
  | raises (msg : String)
deriving DecidableEq, Repr

/-- `SubAgent.execute(task)`: sets the task Running, calls the provider
(or the simulated path when the provider is absent), and returns the
mutated task together with the call's outcome.  On a provider exception it
sets the task Failed and then evaluates `TaskResult.error(str(e), ...)`,
which raises `TypeError` out of the `except` handler, so the whole call
raises instead of returning. -/
def SubAgent.execute (agentId : String) (provider : ProviderOutcome)
    (task : Task) : Task × Except PyError TaskResult :=
  let t1 : Task := { task with status := TaskStatus.running }
  match provider with
  | ProviderOutcome.completes content =>
      let t2 : Task := { t1 with status := TaskStatus.completed }
      (t2, Except.ok (TaskResult.mkOk content [("agent_id", agentId)]))
  | ProviderOutcome.absent =>
      let t2 : Task := { t1 with status := TaskStatus.completed }
      (t2, Except.ok (TaskResult.mkOk
        ("Simulated execution of: " ++ task.description) [("agent_id", agentId)]))
  | ProviderOutcome.raises msg =>
      let t2 : Task := { t1 with status := TaskStatus.failed }
      (t2, TaskResult.callClassAttr "error" msg [("agent_id", agentId)])

/-! ## Orchestrator task map and dependency re-scan -/

/-- The orchestrator's `self.tasks` dict: insertion-ordered map
task-id -> Task, modelled as an association list. -/
def TaskMap : Type := List (String × Task)

/-- `self.tasks.get(dep_id)` / `dep_id in self.tasks`. -/
def lookupTask : TaskMap → String → Option Task
  | [], _ => none
  | (k, t) :: rest, id => if k == id then some t else lookupTask rest id

/-- Membership test `dep_id in self.tasks`. -/
def memTask (tasks : TaskMap) (id : String) : Bool :=
  (lookupTask tasks id).isSome

/-- The dispatch condition inside `AgentOrchestrator._check_dependent_tasks`:
the candidate is Pending, depends on the task that just finished, and every
dependency id present in the task map refers to a task whose `is_done`
holds (ids absent from the map are skipped by the generator's `if`). -/
def check_dependent_condition (tasks : TaskMap) (completed : Task) (t : Task) : Bool :=
  t.status == TaskStatus.pending
    && t.dependencies.contains completed.id
    && t.dependencies.all (fun dep =>
        match lookupTask tasks dep with
        | some d => d.is_done
        | none => true)

/-- `AgentOrchestrator._check_dependent_tasks(completed_task)`: scans the
whole task map and returns the tasks it dispatches (via
`asyncio.create_task(self._execute_task(task))`).  It mutates no task and
marks nothing Failed. -/
def check_dependent_tasks (tasks : TaskMap) (completed : Task) : List Task :=
  (tasks.map Prod.snd).filter (check_dependent_condition tasks completed)

/-- Written from the spec's words, for refinement comparison: a task is
"ready" iff status = Pending and every dependency id is either absent from
the task set or itself terminal-successful (status Completed). -/
def ready_per_spec (tasks : TaskMap) (t : Task) : Bool :=
  t.status == TaskStatus.pending
    && t.dependencies.all (fun dep =>
        match lookupTask tasks dep with
        | some d => d.status == TaskStatus.completed
        | none => true)

/-- The immediate-dispatch decision inside `AgentOrchestrator.submit_task`:
`if task.is_ready and not dependencies:` — the freshly created task is
dispatched at submission time iff it `is_ready` (always true for a fresh
task) and its dependency list is empty. -/
def submit_dispatches_immediately (t : Task) : Bool :=
  t.is_ready && t.dependencies.isEmpty

/-- `AgentOrchestrator.cancel_task(task_id)`: if the task exists and is not
terminal, set it Cancelled and return True; otherwise leave the map
unchanged and return False. -/
def cancel_task : TaskMap → String → TaskMap × Bool
  | [], _ => ([], false)
  | (k, t) :: rest, id =>
      if k == id then
        if !t.is_done then
          ((k, { t with status := TaskStatus.cancelled }) :: rest, true)
        else ((k, t) :: rest, false)
      else
        let (rest', b) := cancel_task rest id
        ((k, t) :: rest', b)

/-- The tail of a successful in-flight execution applied to the shared task
object: `SubAgent.execute` unconditionally sets `task.status = COMPLETED`
after the provider call returns, and `AgentOrchestrator._execute_task`
then unconditionally performs `task.result = result`.  Neither statement
checks whether the task was cancelled in the meantime. -/
def apply_inflight_success (t : Task) (content : String) (agentId : String) : Task :=
  { t with status := TaskStatus.completed,
           result := some (TaskResult.mkOk content [("agent_id", agentId)]) }

/-! ## Agent selection (AgentOrchestrator._execute_task, lines 143-165) -/

/-- The fields of `SubAgent` that agent selection inspects. -/
structure SubAgentInfo where
  id : String
  name : String
  agent_type : String
deriving DecidableEq, Repr

/-- Agent selection in `AgentOrchestrator._execute_task`: an explicitly
supplied (truthy) `agent_id` that is a key of `self.agents` wins; otherwise
the first registered agent whose `agent_type` equals the task's; otherwise
the first registered agent of any type; `none` only when no agent is
registered.  `self.agents` is insertion-ordered, modelled as a list. -/
def find_agent (agents : List SubAgentInfo) (agent_id : Option String)
    (taskType : String) : Option SubAgentInfo :=
  let direct : Option SubAgentInfo :=
    match agent_id with
    | some aid => if aid == "" then none else agents.find? (fun a => a.id == aid)
    | none => none
  match direct with
  | some a => some a
  | none =>
      match agents.find? (fun a => a.agent_type == taskType) with
      | some a => some a
      | none => agents.head?

/-- The `if not agent:` failure branch of `_execute_task`, which marks the
task Failed with "No suitable agent found". -/
def execute_task_no_agent (agents : List SubAgentInfo) (agent_id : Option String)
    (taskType : String) : Bool :=
  (find_agent agents agent_id taskType).isNone

/-! ## Reasoning gateway: retry and fallback
(src/src/llm/provider.py `complete_with_retry`,
src/src/llm/factory.py `MultiProviderRouter._fallback_complete`) -/

/-- One backend seen by the router: its name and the outcome of each
successive `complete()` attempt within one call (attempt index -> outcome;
an `Except.error` is a raised exception). -/
structure ProviderBehavior where
  name : String
  attempt : Nat → Except String String

/-- Loop body of `LLMProvider.complete_with_retry`: run attempts
`i, i+1, ...` with `fuel` attempts remaining; return the first success,
else remember the exception as `last_error` and finally re-raise it.
(`raise last_error` with no recorded error re-raises `None`; the config
default `max_retries = 3` makes that branch unreachable.) -/
def completeWithRetryAux (attempt : Nat → Except String String) :
    Nat → Nat → Option String → Except String String
  | 0, _, lastError => Except.error (lastError.getD "None")
  | fuel + 1, i, _ =>
      match attempt i with
      | Except.ok v => Except.ok v
      | Except.error e => completeWithRetryAux attempt fuel (i + 1) (some e)

/-- `LLMProvider.complete_with_retry`: up to `max_retries` attempts with
exponential backoff (the sleeps have no observable effect on the result),
re-raising the last exception when every attempt fails. -/
def complete_with_retry (max_retries : Nat) (p : ProviderBehavior) :
    Except String String :=
  completeWithRetryAux p.attempt max_retries 0 none

/-- Loop of `MultiProviderRouter._fallback_complete`: try each provider's
`complete_with_retry` in order, returning the first success; when every
provider raised, raise
`RuntimeError("All providers failed. Last error: ...")` carrying only the
most recent exception. -/
def fallbackCompleteAux (max_retries : Nat) :
    List ProviderBehavior → Option String → Except String String
  | [], lastError =>
      Except.error ("All providers failed. Last error: " ++ lastError.getD "None")
  | p :: ps, _lastError =>
      match complete_with_retry max_retries p with
      | Except.ok v => Except.ok v
      | Except.error e => fallbackCompleteAux max_retries ps (some e)

/-- `MultiProviderRouter._fallback_complete(messages)`. -/
def fallback_complete (max_retries : Nat) (providers : List ProviderBehavior) :
    Except String String :=
  fallbackCompleteAux max_retries providers none

/-! ## vibe_shell provider chain (vibe_shell.py `LLMProvider`,
`VibeShell.call_llm_with_fallback`, lines 720-779) -/

/-- Constant `MAX_LLM_RETRIES` from vibe_shell.py. -/
def MAX_LLM_RETRIES : Nat := 3

/-- The `LLMProvider` dataclass of vibe_shell.py, with the raw client
replaced by the outcome of each successive API attempt within one call. -/
structure VProvider where
  name : String
  priority : Int
  is_available : Bool
  attempt : Nat → Except String String

/-- Whether `call_llm_with_fallback` actually issues API calls for this
provider name (`if provider.name == "anthropic": ... elif ... "openai"`);
any other name makes the attempt loop a no-op. -/
def vproviderCallable (name : String) : Bool :=
  name == "anthropic" || name == "openai"

/-- The `for attempt in range(max_retries)` loop of
`call_llm_with_fallback` for one provider.  Returns
`(some text, lastError, marked)` on success, else `(none, lastError', marked)`
where `marked` records that the final attempt failed and executed
`provider.is_available = False`. -/
def vAttemptLoop (attempt : Nat → Except String String) :
    Nat → Nat → String → Option String × String × Bool
  | 0, _, lastError => (none, lastError, false)
  | 1, i, lastError =>
      match attempt i with
      | Except.ok v => (some v, lastError, false)
      | Except.error e => (none, e, true)
  | fuel + 2, i, lastError =>
      match attempt i with
      | Except.ok v => (some v, lastError, false)
      | Except.error e => vAttemptLoop attempt (fuel + 1) (i + 1) e

/-- The provider loop of `call_llm_with_fallback`: skip providers whose
`is_available` flag is false, skip (without attempts) providers whose name
is neither "anthropic" nor "openai", return the first successful response,
and set `is_available := false` on each provider that exhausts its
retries.  Returns the response string together with the providers in their
post-call state (`self.llm_providers` is shared shell state). -/
def callLlmAux (max_retries : Nat) :
    List VProvider → List VProvider → String → String × List VProvider
  | [], acc, lastError =>
      ("ANSWER: All LLM providers failed. Last error: " ++ lastError, acc.reverse)
  | p :: ps, acc, lastError =>
      if !p.is_available then callLlmAux max_retries ps (p :: acc) lastError
      else if !vproviderCallable p.name then callLlmAux max_retries ps (p :: acc) lastError
      else
        match vAttemptLoop p.attempt max_retries 0 lastError with
        | (some v, _, _) => (v, acc.reverse ++ p :: ps)
        | (none, lastError', marked) =>
            let p' : VProvider :=
              if marked then { p with is_available := false } else p
            callLlmAux max_retries ps (p' :: acc) lastError'

/-- `VibeShell.call_llm_with_fallback(messages)`: empty provider list short
circuits with a fixed message; otherwise run the fallback loop starting
with `last_error = ""`.  The second component is the provider list as the
shell instance keeps it for subsequent calls. -/
def call_llm_with_fallback (max_retries : Nat) (providers : List VProvider) :
    String × List VProvider :=
  if providers.isEmpty then
    ("ANSWER: No LLM providers available. Set ANTHROPIC_API_KEY or OPENAI_API_KEY.",
     providers)
  else callLlmAux max_retries providers [] ""

/-! ## Action sandbox: path confinement and the file tools
(vibe_shell.py `tool_read_file` lines 518-575, `tool_write_file`
lines 577-633, `tool_shell` truncation lines 486-510) -/

/-- Constant `MAX_OUTPUT_LENGTH` from vibe_shell.py. -/
def MAX_OUTPUT_LENGTH : Nat := 4000

/-- A `pathlib.Path` after `expanduser()`: an absolute flag and the list of
name components (components may be "." or ".."). -/
structure PyPath where
  absolute : Bool
  comps : List String
deriving DecidableEq, Repr

/-- `Path(self.cwd) / p` for a possibly relative `p` (the working
directory is held as an absolute component list). -/
def joinCwd (cwd : List String) (p : PyPath) : List String :=
  if p.absolute then p.comps else cwd ++ p.comps

/-- Lexical core of `Path.resolve()` on an absolute component list:
"." is dropped, ".." removes the previous component (staying at the root
when there is none). -/
def resolveAux : List String → List String → List String
  | base, [] => base
  | base, "." :: rest => resolveAux base rest
  | base, ".." :: rest => resolveAux base.dropLast rest
  | base, c :: rest => resolveAux (base ++ [c]) rest

/-- `Path.resolve()` (lexical part; symlinks are outside the model). -/
def resolvePath (comps : List String) : List String :=
  resolveAux [] comps

/-- The confinement check `p.resolve().relative_to(Path(self.cwd).resolve())`:
`relative_to` succeeds exactly when the resolved working directory is a
lexical ancestor (or the path itself). -/
def withinCwd (cwd : List String) (p : PyPath) : Bool :=
  List.isPrefixOf (resolvePath cwd) (resolvePath (joinCwd cwd p))

/-- Rendering of an absolute path component list the way Python prints a
`PosixPath` inside an f-string. -/
def renderPath (comps : List String) : String :=
  "/" ++ String.intercalate "/" comps

/-- The file system visible to the tools: a map from resolved absolute
path to file content.  Directories are implicit. -/
def FileSystem : Type := List (List String × String)

/-- File lookup by resolved path. -/
def fsRead : FileSystem → List String → Option String
  | [], _ => none
  | (k, content) :: rest, p => if k == p then some content else fsRead rest p

/-- File write (insert or overwrite) at a resolved path. -/
def fsWrite : FileSystem → List String → String → FileSystem
  | [], p, content => [(p, content)]
  | (k, old) :: rest, p, content =>
      if k == p then (k, content) :: rest
      else (k, old) :: fsWrite rest p content

/-- Python string slicing `s[:n]` (by code points). -/
def pyTake (s : String) (n : Nat) : String :=
  String.mk (s.data.take n)

/-- Python string length `len(s)` (code points). -/
def pyLen (s : String) : Nat :=
  s.data.length

/-- `VibeShell.tool_read_file(path)`: join onto the working directory,
deny anything that resolves outside it, then report missing files, and
truncate long contents with an explicit marker.  The denied branch runs
before any file-system access. -/
def tool_read_file (cwd : List String) (fs : FileSystem) (p : PyPath) : String :=
  let abs := joinCwd cwd p
  if !withinCwd cwd p then
    "(access denied: path outside working directory)"
  else
    match fsRead fs (resolvePath abs) with
    | none => "(file not found: " ++ renderPath abs ++ ")"
    | some content =>
        if pyLen content > MAX_OUTPUT_LENGTH then
          pyTake content MAX_OUTPUT_LENGTH
            ++ "\n... (truncated, " ++ toString (pyLen content) ++ " total chars)"
        else content

/-- `VibeShell.tool_write_file(path, content)`: the same confinement check,
then parent-directory creation and the write (both after the check);
returns the observation and the file system after the call. -/
def tool_write_file (cwd : List String) (fs : FileSystem) (p : PyPath)
    (content : String) : String × FileSystem :=
  let abs := joinCwd cwd p
  if !withinCwd cwd p then
    ("(access denied: path outside working directory)", fs)
  else
    ("✓ Written " ++ toString (pyLen content) ++ " chars to " ++ renderPath abs,
     fsWrite fs (resolvePath abs) content)

/-- The success-path observation of `VibeShell.tool_shell`:
`result = output[:MAX_OUTPUT_LENGTH] if output else "(no output)"` —
plain character truncation with no marker of any kind. -/
def tool_shell_observation (output : String) : String :=
  if output == "" then "(no output)" else pyTake output MAX_OUTPUT_LENGTH

/-! ## ReAct loop (vibe_shell.py `parse_llm_response`,
`_parse_action_args`, `react`, lines 830-967) -/

/-- Constant `MAX_STEPS` from vibe_shell.py. -/
def MAX_STEPS : Nat := 6

/-- The `Action` dataclass of vibe_shell.py: tool name and argument map
(`_parse_action_args` only ever stores string values). -/
structure Action where
  tool : String
  args : List (String × String)
deriving DecidableEq, Repr

/-- The `Step` dataclass of vibe_shell.py. -/
structure Step where
  thought : String
  action : Option Action
  observation : Option String
  answer : Option String
deriving DecidableEq, Repr

/-- Python `\s` character class (space, tab, newline, carriage return,
vertical tab, form feed). -/
def isPySpace (c : Char) : Bool :=
  c == ' ' || c == '\t' || c == '\n' || c == '\r'
    || c == Char.ofNat 11 || c == Char.ofNat 12

/-- Python `\w` character class (alphanumerics and underscore). -/
def isWordChar (c : Char) : Bool :=
  c.isAlphanum || c == '_'

/-- Python `str.strip()`: drop leading and trailing whitespace
(the full `\s` class, which `String.trim` does not cover). -/
def pyStrip (s : String) : String :=
  String.mk (((s.data.dropWhile isPySpace).reverse.dropWhile isPySpace).reverse)

/-- A quote character as stripped by `args_str.strip('"\'')`. -/
def isQuote (c : Char) : Bool :=
  c == Char.ofNat 34 || c == Char.ofNat 39

/-- `s.strip('"\'')`: drop leading and trailing quote characters. -/
def stripQuotes (s : String) : String :=
  String.mk (((s.data.dropWhile isQuote).reverse.dropWhile isQuote).reverse)

/-- Index of the first occurrence of `pat` in `hay` (the position where
`re.search` of a literal anchors). -/
def findSubAux (pat : List Char) : List Char → Nat → Option Nat
  | [], i => if List.isPrefixOf pat ([] : List Char) then some i else none
  | c :: rest, i =>
      if List.isPrefixOf pat (c :: rest) then some i
      else findSubAux pat rest (i + 1)

/-- First occurrence of a literal substring. -/
def findSub (hay pat : List Char) : Option Nat :=
  findSubAux pat hay 0

/-- Everything after the first occurrence of a literal marker, if any. -/
def afterMarker (hay pat : List Char) : Option (List Char) :=
  (findSub hay pat).map (fun i => hay.drop (i + pat.length))

/-- Index of the first `')'` at position ≥ 1, matching the lazy group of
`ACTION:\s*(\w+)\((.+?)\)` which needs at least one captured character. -/
def closeParenIdx (body : List Char) : Option Nat :=
  match body with
  | [] => none
  | _ :: rest => (findSub rest [')']).map (· + 1)

/-- `VibeShell._parse_action_args` branch for `write_file` with a given
quote character: `re.match(r'"([^"]+)"\s*,\s*"(.+)"', args_str, DOTALL)`.
The first group is the shortest run of non-quote characters (at least one);
the greedy second group extends to the last quote character in the rest;
`re.match` anchors only the start, trailing text is ignored. -/
def parseWritePair (q : Char) (cs : List Char) : Option (String × String) :=
  match cs with
  | c :: rest =>
      if c == q then
        let path := rest.takeWhile (fun d => !(d == q))
        match rest.dropWhile (fun d => !(d == q)) with
        | c1 :: rest1 =>
            if path.isEmpty || !(c1 == q) then none
            else
              match (rest1.dropWhile isPySpace) with
              | c2 :: rest2 =>
                  if !(c2 == ',') then none
                  else
                    match (rest2.dropWhile isPySpace) with
                    | c3 :: rest3 =>
                        if !(c3 == q) then none
                        else
                          match findSub rest3.reverse [q] with
                          | some j =>
                              if rest3.length - 1 - j ≥ 1 then
                                some (String.mk path,
                                      String.mk (rest3.take (rest3.length - 1 - j)))
                              else none
                          | none => none
                    | [] => none
              | [] => none
        | [] => none
      else none
  | [] => none

/-- `VibeShell._parse_action_args(tool, args_str)`. -/
def parse_action_args (tool : String) (args_str : String) : List (String × String) :=
  if tool == "shell" then [("cmd", stripQuotes args_str)]
  else if tool == "read_file" then [("path", stripQuotes args_str)]
  else if tool == "write_file" then
    match parseWritePair (Char.ofNat 34) args_str.data with
    | some (p, c) => [("path", p), ("content", c)]
    | none =>
        match parseWritePair (Char.ofNat 39) args_str.data with
        | some (p, c) => [("path", p), ("content", c)]
        | none => []
  else if tool == "search" then
    match findSub args_str.data [','] with
    | none => [("pattern", stripQuotes (pyStrip args_str))]
    | some i =>
        [("pattern", stripQuotes (pyStrip (String.mk (args_str.data.take i)))),
         ("path", stripQuotes (pyStrip (String.mk (args_str.data.drop (i + 1)))))]
  else []

/-- `VibeShell.parse_llm_response(text)`: marker-scanning translation of
the three regex searches.  `THOUGHT:` captures lazily up to the first
following `ACTION:`/`ANSWER:`/end and is stripped; `ACTION:` expects
optional whitespace, a nonempty `\w+` tool name, `(`, and a lazily matched
nonempty argument text up to the first closing parenthesis; `ANSWER:`
captures the (nonempty) remainder of the text, stripped.  Each marker is
taken at its first occurrence (the source regexes backtrack to later
occurrences only in degenerate inputs).  The `Action` constructor cannot
raise here because the tool name is never empty and the args are a dict. -/
def parse_llm_response (text : String) : Step :=
  let cs := text.data
  let thought :=
    match afterMarker cs "THOUGHT:".data with
    | none => ""
    | some rest =>
        let stopA := (findSub rest "ACTION:".data).getD rest.length
        let stopB := (findSub rest "ANSWER:".data).getD rest.length
        pyStrip (String.mk (rest.take (min stopA stopB)))
  let action :=
    match afterMarker cs "ACTION:".data with
    | none => none
    | some rest =>
        let rest1 := rest.dropWhile isPySpace
        let word := rest1.takeWhile isWordChar
        match rest1.dropWhile isWordChar with
        | c :: body =>
            if word.isEmpty || !(c == '(') then none
            else
              match closeParenIdx body with
              | some j =>
                  let args_str := pyStrip (String.mk (body.take j))
                  some { tool := String.mk word,
                         args := parse_action_args (String.mk word) args_str }
              | none => none
        | [] => none
  let answer :=
    match afterMarker cs "ANSWER:".data with
    | none => none
    | some rest => if rest.isEmpty then none else some (pyStrip (String.mk rest))
  { thought := thought, action := action, observation := none, answer := answer }

/-- Python truthiness of `step.answer` (`None` and `""` are falsy). -/
def Step.truthyAnswer (s : Step) : Bool :=
  !(s.answer.getD "" == "")

/-- The `for i in range(MAX_STEPS)` loop of `VibeShell.react`, with the
gateway (`call_llm_with_fallback` on the current message list) abstracted
as `oracle` and the sandbox (`execute_action`) abstracted as `exec`.
Returns the final answer together with the number of gateway calls made.
A truthy answer returns it; otherwise an action produces an observation
appended to the message history; otherwise the loop returns the
clarification message; an exhausted budget returns the budget-exceeded
message without any further gateway call. -/
def reactGo (oracle : List (String × String) → String) (exec : Action → String) :
    Nat → List (String × String) → String × Nat
  | 0, _ =>
      ("I took too many steps without reaching a conclusion. Please try a simpler request.",
       0)
  | fuel + 1, messages =>
      let response := oracle messages
      let step := parse_llm_response response
      if step.truthyAnswer then (step.answer.getD "", 1)
      else
        match step.action with
        | some act =>
            let obs := exec act
            let next := messages ++
              [("assistant", response), ("user", "OBSERVATION: " ++ obs)]
            let (r, n) := reactGo oracle exec fuel next
            (r, n + 1)
        | none => ("I'm not sure what to do. Can you be more specific?", 1)

/-- `VibeShell.react(user_input)`: reject empty input, build the initial
system/user message pair, and run the bounded loop.  `SYSTEM_PROMPT` is an
inert string constant and enters only the message content, so it is passed
in as a parameter. -/
def react (systemPrompt : String) (oracle : List (String × String) → String)
    (exec : Action → String) (cwd user_input : String) : String × Nat :=
  let ui := pyStrip user_input
  if ui == "" then ("Please enter a command or question.", 0)
  else
    reactGo oracle exec MAX_STEPS
      [("system", systemPrompt),
       ("user", "Current directory: " ++ cwd ++ "\n\nUser: " ++ ui)]

/-! ## Theorems -/

/-- Helper: the per-dependency check of `_check_dependent_tasks` as a
universally quantified statement. -/
theorem depDoneMatch_iff (tasks : TaskMap) (dep : String) :
    ((match lookupTask tasks dep with
      | some d => d.is_done
      | none => true) = true) ↔
      ∀ d, lookupTask tasks dep = some d → d.is_done = true := by
  cases h : lookupTask tasks dep <;> simp [h]

/-- C1 (counterexample).  The claim says a task with a terminal-failed
dependency is never dispatched and itself ends Failed.  In the code,
`_check_dependent_tasks` dispatches task "b" although its only dependency
"a" is Failed (`is_done` accepts any terminal status), and executing "b"
(simulated path) ends it Completed, not Failed. -/
theorem C1_failed_dep_dispatched :
    (let depA : Task :=
      { Task.create "a" "task a" "general" [] none [] with status := TaskStatus.failed }
    let depB : Task := Task.create "b" "task b" "general" [] none ["a"]
    let tasks : TaskMap := [("a", depA), ("b", depB)]
    depA.status = TaskStatus.failed ∧
    depB.dependencies = ["a"] ∧
    depB ∈ check_dependent_tasks tasks depA ∧
    ((SubAgent.execute "agent" ProviderOutcome.absent depB).1).status
      = TaskStatus.completed) := by
  refine ⟨rfl, rfl, ?_, rfl⟩
  decide

/-- C1 (amended).  A pending task is dispatched by the completion re-scan
exactly when it depends on the just-finished task and every dependency id
present in the task map is terminal in any status (Completed, Failed, or
Cancelled) — terminal-failed dependencies do not block dispatch, and the
re-scan mutates no task, so no failed-dependency propagation occurs. -/
theorem C1_dispatch_characterization (tasks : TaskMap) (completed t : Task) :
    t ∈ check_dependent_tasks tasks completed ↔
      (t ∈ tasks.map Prod.snd ∧ t.status = TaskStatus.pending ∧
       completed.id ∈ t.dependencies ∧
       ∀ dep d, dep ∈ t.dependencies → lookupTask tasks dep = some d →
         d.is_done = true) := by
  unfold check_dependent_tasks
  rw [List.mem_filter]
  unfold check_dependent_condition
  simp only [Bool.and_eq_true, beq_iff_eq, List.all_eq_true, List.elem_iff,
    decide_eq_true_eq]
  constructor
  · rintro ⟨hmem, ⟨hp, hc⟩, hall⟩
    exact ⟨hmem, hp, hc, fun dep d hdep hl =>
      (depDoneMatch_iff tasks dep).mp (hall dep hdep) d hl⟩
  · rintro ⟨hmem, hp, hc, hall⟩
    exact ⟨hmem, ⟨hp, hc⟩, fun dep hdep =>
      (depDoneMatch_iff tasks dep).mpr (fun d hl => hall dep d hdep hl)⟩

/-- C2 (code_bug evaluation).  `SubAgent.execute` is meant to capture any
internal failure and return `TaskResult(success=False, error=...)`, but its
`except` handler calls `TaskResult.error(...)`, which resolves to the
dataclass field default `None`; the call therefore raises `TypeError`
uncaught out of `execute` whenever the provider raises. -/
theorem C2_execute_raises_uncaught :
    (SubAgent.execute "a1" (ProviderOutcome.raises "boom")
        (Task.create "t1" "desc" "general" [] none [])).2
      = Except.error (PyError.typeError "NoneType object is not callable") ∧
    (SubAgent.execute "a1" (ProviderOutcome.raises "boom")
        (Task.create "t1" "desc" "general" [] none [])).1.status
      = TaskStatus.failed := by
  exact ⟨rfl, rfl⟩

/-- C3 (counterexample).  A freshly submitted task whose single dependency
id is absent from the task set is "ready" in the spec's sense, yet
`submit_task` does not schedule it (`if task.is_ready and not dependencies`
fails on the nonempty dependency list). -/
theorem C3_ready_task_not_dispatched :
    (let t : Task := Task.create "t1" "desc" "general" [] none ["absent-dep"]
    ready_per_spec [] t = true ∧ submit_dispatches_immediately t = false) := by
  exact ⟨rfl, rfl⟩

/-- C3 (amended).  `submit_task` schedules immediate dispatch exactly for
tasks whose dependency list is empty: a freshly created task is always
Pending (hence `is_ready`), so the submission-time dispatch decision
reduces to `dependencies == []`; every task with a nonempty dependency
list waits for a dependency-completion event even when all its
dependencies are already absent or terminal-successful. -/
theorem C3_submit_dispatch_iff_no_deps (id description agent_type : String)
    (inputs : List (String × String)) (parent_id : Option String)
    (dependencies : List String) :
    submit_dispatches_immediately
        (Task.create id description agent_type inputs parent_id dependencies)
      = dependencies.isEmpty := by
  simp [submit_dispatches_immediately, Task.create, Task.is_ready]

/-- Helper: when a prefix of providers all exhaust their retries, the
router loop reaches the final provider with the prefix contributing only
its remembered last error. -/
theorem fallbackAux_error (mr : Nat) (p : ProviderBehavior) (e : String)
    (hp : complete_with_retry mr p = Except.error e) :
    ∀ (pre : List ProviderBehavior),
      (∀ q ∈ pre, ∃ eq, complete_with_retry mr q = Except.error eq) →
      ∀ le, fallbackCompleteAux mr (pre ++ [p]) le
        = Except.error ("All providers failed. Last error: " ++ e) := by
  intro pre
  induction pre with
  | nil =>
      intro _ le
      simp [fallbackCompleteAux, hp]
  | cons q qs ih =>
      intro hfail le
      obtain ⟨eq, hq⟩ := hfail q (List.mem_cons_self q qs)
      have hrest : ∀ r ∈ qs, ∃ er, complete_with_retry mr r = Except.error er :=
        fun r hr => hfail r (List.mem_cons_of_mem q hr)
      simp only [List.cons_append]
      rw [fallbackCompleteAux, hq]
      exact ih hrest (some eq)

/-- Helper: the first provider to succeed within its retries determines the
router's result, regardless of any providers listed after it. -/
theorem fallbackAux_ok (mr : Nat) (p : ProviderBehavior) (v : String)
    (hp : complete_with_retry mr p = Except.ok v) :
    ∀ (pre post : List ProviderBehavior),
      (∀ q ∈ pre, ∃ eq, complete_with_retry mr q = Except.error eq) →
      ∀ le, fallbackCompleteAux mr (pre ++ p :: post) le = Except.ok v := by
  intro pre
  induction pre with
  | nil =>
      intro post _ le
      simp only [List.nil_append]
      rw [fallbackCompleteAux, hp]
  | cons q qs ih =>
      intro post hfail le
      obtain ⟨eq, hq⟩ := hfail q (List.mem_cons_self q qs)
      have hrest : ∀ r ∈ qs, ∃ er, complete_with_retry mr r = Except.error er :=
        fun r hr => hfail r (List.mem_cons_of_mem q hr)
      simp only [List.cons_append]
      rw [fallbackCompleteAux, hq]
      exact ih post hrest (some eq)

/-- C4 (counterexample).  With two backends failing with distinct errors
"e1" and "e2", the aggregate error of `_fallback_complete` records only
the final backend's failure: it does not contain "e1" at all, and the
result is bitwise identical when the first backend's failure is replaced
by a different one — so the error cannot name each backend's last failure. -/
theorem C4_aggregate_error_drops_backends :
    (let p1 : ProviderBehavior := ⟨"backend1", fun _ => Except.error "e1"⟩
    let p2 : ProviderBehavior := ⟨"backend2", fun _ => Except.error "e2"⟩
    let p1x : ProviderBehavior := ⟨"backend1", fun _ => Except.error "e3"⟩
    fallback_complete 3 [p1, p2]
        = Except.error "All providers failed. Last error: e2" ∧
    fallback_complete 3 [p1x, p2] = fallback_complete 3 [p1, p2] ∧
    findSub "All providers failed. Last error: e2".data "e1".data = none) := by
  exact ⟨rfl, rfl, by decide⟩

/-- C4 (amended).  If all configured backends fail every retry, the call
fails with an aggregate error naming only the last backend's last failure
(the other backends' failures are discarded); if any backend eventually
succeeds within its retries, its result is returned and no further
backends are tried. -/
theorem C4_fallback_exhaustion (mr : Nat) :
    (∀ (pre : List ProviderBehavior) (p : ProviderBehavior) (e : String),
      (∀ q ∈ pre, ∃ eq, complete_with_retry mr q = Except.error eq) →
      complete_with_retry mr p = Except.error e →
      fallback_complete mr (pre ++ [p])
        = Except.error ("All providers failed. Last error: " ++ e)) ∧
    (∀ (pre post : List ProviderBehavior) (p : ProviderBehavior) (v : String),
      (∀ q ∈ pre, ∃ eq, complete_with_retry mr q = Except.error eq) →
      complete_with_retry mr p = Except.ok v →
      fallback_complete mr (pre ++ p :: post) = Except.ok v) := by
  constructor
  · intro pre p e hfail hp
    exact fallbackAux_error mr p e hp pre hfail none
  · intro pre post p v hfail hp
    exact fallbackAux_ok mr p v hp pre post hfail none

/-- C4 (witness).  Concrete applications of `C4_fallback_exhaustion`: two
always-failing backends produce the aggregate error carrying "e2"; a chain
fail/succeed/fail returns the middle backend's result. -/
theorem C4_fallback_exhaustion_witness :
    fallback_complete 3
        ([⟨"b1", fun _ => Except.error "e1"⟩] ++ [⟨"b2", fun _ => Except.error "e2"⟩])
      = Except.error "All providers failed. Last error: e2" ∧
    fallback_complete 3
        ([⟨"b1", fun _ => Except.error "e1"⟩] ++
          ⟨"b3", fun _ => Except.ok "result"⟩ :: [⟨"b4", fun _ => Except.error "e4"⟩])
      = Except.ok "result" := by
  constructor
  · refine (C4_fallback_exhaustion 3).1 _ _ "e2" ?_ rfl
    intro q hq
    rw [List.mem_singleton] at hq
    exact ⟨"e1", by rw [hq]; rfl⟩
  · refine (C4_fallback_exhaustion 3).2 _ _ _ "result" ?_ rfl
    intro q hq
    rw [List.mem_singleton] at hq
    exact ⟨"e1", by rw [hq]; rfl⟩

/-- C5 (confirmed).  For every path whose resolved absolute form is not
inside the configured working directory, `tool_read_file` and
`tool_write_file` return the access-denied observation and perform no file
I/O: the read result is independent of the file system and the write
leaves the file system unchanged. -/
theorem C5_path_confinement (cwd : List String) (fs fs2 : FileSystem)
    (p : PyPath) (content : String) (h : withinCwd cwd p = false) :
    tool_read_file cwd fs p = "(access denied: path outside working directory)" ∧
    tool_read_file cwd fs p = tool_read_file cwd fs2 p ∧
    (tool_write_file cwd fs p content).1
      = "(access denied: path outside working directory)" ∧
    (tool_write_file cwd fs p content).2 = fs := by
  refine ⟨?_, ?_, ?_, ?_⟩ <;> simp [tool_read_file, tool_write_file, h]

/-- C5 (witness).  `../../etc/passwd` from working directory `/home/user`
resolves to `/etc/passwd`, is denied by both tools, and the file system is
untouched. -/
theorem C5_path_confinement_witness :
    withinCwd ["home", "user"] ⟨false, ["..", "..", "etc", "passwd"]⟩ = false ∧
    tool_read_file ["home", "user"] [(["home", "user", "notes.txt"], "hello")]
        ⟨false, ["..", "..", "etc", "passwd"]⟩
      = "(access denied: path outside working directory)" ∧
    (tool_write_file ["home", "user"] [(["home", "user", "notes.txt"], "hello")]
        ⟨false, ["..", "..", "etc", "passwd"]⟩ "intruder").2
      = [(["home", "user", "notes.txt"], "hello")] := by
  have h : withinCwd ["home", "user"] ⟨false, ["..", "..", "etc", "passwd"]⟩ = false := by
    decide
  have hc := C5_path_confinement ["home", "user"]
    [(["home", "user", "notes.txt"], "hello")] []
    ⟨false, ["..", "..", "etc", "passwd"]⟩ "intruder" h
  exact ⟨h, hc.1, hc.2.2.2⟩

/-- Helper: `cancel_task` on a non-terminal task flips exactly that task
to Cancelled and reports success. -/
theorem cancel_task_marks_cancelled (tasks : TaskMap) (id : String) (t : Task)
    (hl : lookupTask tasks id = some t) (hnd : t.is_done = false) :
    (cancel_task tasks id).2 = true ∧
    lookupTask (cancel_task tasks id).1 id
      = some { t with status := TaskStatus.cancelled } := by
  induction tasks with
  | nil => simp [lookupTask] at hl
  | cons kv rest ih =>
      obtain ⟨k, t'⟩ := kv
      by_cases hk : (k == id) = true
      · rw [lookupTask, if_pos hk] at hl
        obtain rfl : t' = t := by injection hl
        rw [cancel_task, if_pos hk, if_pos (by simp [hnd])]
        exact ⟨rfl, by rw [lookupTask, if_pos hk]⟩
      · rw [lookupTask, if_neg hk] at hl
        have := ih hl
        rw [cancel_task, if_neg hk]
        cases hrec : cancel_task rest id with
        | mk rest' b =>
            rw [hrec] at this
            exact ⟨this.1, by rw [lookupTask, if_neg hk]; exact this.2⟩

/-- C6 (counterexample).  The claim says a Cancelled task's status is never
overwritten and its result never set by an in-flight execution.  In the
code, after `cancel_task` marks a Running task Cancelled, the in-flight
execution's completion path unconditionally sets status Completed and
assigns the result. -/
theorem C6_cancel_does_not_block_result :
    (let t0 : Task :=
      { Task.create "x" "work" "general" [] none [] with status := TaskStatus.running }
    let afterCancel := cancel_task [("x", t0)] "x"
    let t1 : Task := { t0 with status := TaskStatus.cancelled }
    afterCancel.2 = true ∧
    lookupTask afterCancel.1 "x" = some t1 ∧
    (apply_inflight_success t1 "output" "agent1").status = TaskStatus.completed ∧
    (apply_inflight_success t1 "output" "agent1").result
      = some (TaskResult.mkOk "output" [("agent_id", "agent1")])) := by
  exact ⟨rfl, rfl, rfl, rfl⟩

/-- C6 (amended).  `cancel_task` marks every non-terminal task Cancelled
and returns true, and cancellation does not forcibly interrupt an
in-flight execution; but it does not prevent result application either:
when the in-flight execution finishes, it overwrites the task's status
with Completed and sets the task's result, Cancelled or not. -/
theorem C6_advisory_cancellation (tasks : TaskMap) (id : String) (t : Task)
    (hl : lookupTask tasks id = some t) (hnd : t.is_done = false) :
    (cancel_task tasks id).2 = true ∧
    lookupTask (cancel_task tasks id).1 id
      = some { t with status := TaskStatus.cancelled } ∧
    (∀ (t' : Task) (content agentId : String),
      (apply_inflight_success t' content agentId).status = TaskStatus.completed ∧
      (apply_inflight_success t' content agentId).result
        = some (TaskResult.mkOk content [("agent_id", agentId)])) := by
  have h := cancel_task_marks_cancelled tasks id t hl hnd
  exact ⟨h.1, h.2, fun _ _ _ => ⟨rfl, rfl⟩⟩

/-- C6 (witness).  `C6_advisory_cancellation` applied to a concrete
Running task. -/
theorem C6_advisory_cancellation_witness :
    (cancel_task [("x", { Task.create "x" "work" "general" [] none [] with
        status := TaskStatus.running })] "x").2 = true ∧
    (apply_inflight_success
        { Task.create "x" "work" "general" [] none [] with
          status := TaskStatus.cancelled } "out" "a1").status
      = TaskStatus.completed := by
  have h := C6_advisory_cancellation
    [("x", { Task.create "x" "work" "general" [] none [] with
        status := TaskStatus.running })] "x"
    { Task.create "x" "work" "general" [] none [] with status := TaskStatus.running }
    rfl rfl
  exact ⟨h.1, (h.2.2 _ "out" "a1").1⟩

/-- A shell output one character over the cap. -/
def bigShellOutput : String :=
  String.mk (List.replicate 4001 'a')

/-- Helper: a literal pattern whose first character never occurs in the
haystack is not found. -/
theorem findSubAux_head_absent (c : Char) (rest : List Char) :
    ∀ (hay : List Char), (∀ x ∈ hay, ¬x = c) →
      ∀ i, findSubAux (c :: rest) hay i = none := by
  intro hay
  induction hay with
  | nil => intro _ i; rfl
  | cons x hay' ih =>
      intro habs i
      have hx : ¬x = c := habs x (List.mem_cons_self x hay')
      have hpre : List.isPrefixOf (c :: rest) (x :: hay') = false := by
        simp only [List.isPrefixOf]
        have : (c == x) = false := by
          cases hbe : c == x
          · rfl
          · exact absurd (beq_iff_eq.mp hbe).symm hx
        simp [this]
      rw [findSubAux, hpre]
      simp only [Bool.false_eq_true, if_false]
      exact ih (fun y hy => habs y (List.mem_cons_of_mem x hy)) (i + 1)

/-- Helper: the character count of `bigShellOutput`. -/
theorem bigShellOutput_len : pyLen bigShellOutput = 4001 := by
  show (List.replicate 4001 'a').length = 4001
  rw [List.length_replicate]

/-- Helper: `bigShellOutput` is nonempty. -/
theorem bigShellOutput_ne_empty : (bigShellOutput == "") = false := by
  rw [beq_eq_false_iff_ne]
  intro h
  have h1 : pyLen bigShellOutput = pyLen "" := by rw [h]
  rw [bigShellOutput_len, show pyLen "" = 0 from rfl] at h1
  exact absurd h1 (by norm_num)

/-- Helper: the shell observation of `bigShellOutput` is 4000 copies
of 'a'. -/
theorem tool_shell_observation_big :
    tool_shell_observation bigShellOutput = String.mk (List.replicate 4000 'a') := by
  rw [tool_shell_observation, bigShellOutput_ne_empty]
  simp only [Bool.false_eq_true, if_false, pyTake, bigShellOutput]
  rw [List.take_replicate]
  have hm : MAX_OUTPUT_LENGTH ⊓ 4001 = 4000 := by
    rw [show MAX_OUTPUT_LENGTH = 4000 from rfl]
    omega
  rw [hm]

/-- C7 (counterexample).  The claim says every over-long tool observation
carries a "(truncated, N total)" marker.  `tool_shell` truncates a
4001-character output to exactly 4000 characters with no marker at all
(the word "truncated" does not occur in the observation). -/
theorem C7_shell_truncates_silently :
    tool_shell_observation bigShellOutput = String.mk (List.replicate 4000 'a') ∧
    pyLen bigShellOutput = 4001 ∧
    pyLen (tool_shell_observation bigShellOutput) = MAX_OUTPUT_LENGTH ∧
    findSub (tool_shell_observation bigShellOutput).data "truncated".data = none := by
  refine ⟨tool_shell_observation_big, bigShellOutput_len, ?_, ?_⟩
  · rw [tool_shell_observation_big]
    show (List.replicate 4000 'a').length = MAX_OUTPUT_LENGTH
    rw [List.length_replicate]
    rfl
  · rw [tool_shell_observation_big]
    show findSub (List.replicate 4000 'a') "truncated".data = none
    rw [findSub]
    refine findSubAux_head_absent 't' "runcated".data (List.replicate 4000 'a') ?_ 0
    intro x hx
    rw [List.eq_of_mem_replicate hx]
    decide

/-- C7 (amended).  Only `tool_read_file` truncates with the explicit
"(truncated, N total chars)" marker; `tool_shell` truncates its output to
the cap silently, with no marker. -/
theorem C7_truncation_behaviour (cwd : List String) (fs : FileSystem)
    (p : PyPath) (content : String) (hin : withinCwd cwd p = true)
    (hfile : fsRead fs (resolvePath (joinCwd cwd p)) = some content)
    (hlong : pyLen content > MAX_OUTPUT_LENGTH)
    (output : String) (hne : (output == "") = false) :
    tool_read_file cwd fs p
      = pyTake content MAX_OUTPUT_LENGTH ++ "\n... (truncated, "
          ++ toString (pyLen content) ++ " total chars)" ∧
    tool_shell_observation output = pyTake output MAX_OUTPUT_LENGTH := by
  constructor
  · simp [tool_read_file, hin, hfile, hlong]
  · simp [tool_shell_observation, hne]

/-- C7 (witness).  `C7_truncation_behaviour` applied to a 4001-character
file under the working directory and to the 4001-character shell output. -/
theorem C7_truncation_behaviour_witness :
    tool_read_file ["w"] [(["w", "big.txt"], bigShellOutput)] ⟨false, ["big.txt"]⟩
      = pyTake bigShellOutput MAX_OUTPUT_LENGTH ++ "\n... (truncated, "
          ++ toString (pyLen bigShellOutput) ++ " total chars)" ∧
    tool_shell_observation bigShellOutput = pyTake bigShellOutput MAX_OUTPUT_LENGTH := by
  exact C7_truncation_behaviour ["w"] [(["w", "big.txt"], bigShellOutput)]
    ⟨false, ["big.txt"]⟩ bigShellOutput (by decide) rfl
    (by rw [bigShellOutput_len]; norm_num [MAX_OUTPUT_LENGTH])
    bigShellOutput bigShellOutput_ne_empty

/-- The post-call relation on one provider: untouched, or only its
availability flag cleared. -/
def availOnlyCleared (q p : VProvider) : Prop :=
  q = p ∨ q = { p with is_available := false }

/-- Helper: the provider loop of `call_llm_with_fallback` returns the
accumulator followed by a pointwise `availOnlyCleared` image of the
remaining providers — it never sets an `is_available` flag to true. -/
theorem callLlmAux_availability (mr : Nat) :
    ∀ (rest : List VProvider) (acc : List VProvider) (le : String),
      ∃ rest', (callLlmAux mr rest acc le).2 = acc.reverse ++ rest' ∧
        List.Forall₂ availOnlyCleared rest' rest := by
  intro rest
  induction rest with
  | nil =>
      intro acc le
      exact ⟨[], by simp [callLlmAux], List.Forall₂.nil⟩
  | cons p ps ih =>
      intro acc le
      rw [callLlmAux]
      by_cases hav : p.is_available
      · simp only [hav, Bool.not_true, Bool.false_eq_true, if_false]
        by_cases hcall : vproviderCallable p.name
        · simp only [hcall, Bool.not_true, Bool.false_eq_true, if_false]
          cases hAtt : vAttemptLoop p.attempt mr 0 le with
          | mk first rest0 =>
              cases first with
              | some v =>
                  refine ⟨p :: ps, by simp, ?_⟩
                  exact List.Forall₂.cons (Or.inl rfl)
                    (List.forall₂_same.mpr (fun q _ => Or.inl rfl))
              | none =>
                  obtain ⟨le', marked⟩ := rest0
                  obtain ⟨rest', heq, hrel⟩ :=
                    ih ((if marked then { p with is_available := false } else p) :: acc) le'
                  refine ⟨(if marked then { p with is_available := false } else p) :: rest',
                    ?_, ?_⟩
                  · rw [heq]; simp
                  · refine List.Forall₂.cons ?_ hrel
                    cases marked with
                    | true => exact Or.inr (by simp)
                    | false => exact Or.inl (by simp)
        · simp only [hcall, Bool.not_false, if_true]
          obtain ⟨rest', heq, hrel⟩ := ih (p :: acc) le
          exact ⟨p :: rest', by rw [heq]; simp, List.Forall₂.cons (Or.inl rfl) hrel⟩
      · simp only [Bool.not_eq_true] at hav
        simp only [hav, Bool.not_false, if_true]
        obtain ⟨rest', heq, hrel⟩ := ih (p :: acc) le
        exact ⟨p :: rest', by rw [heq]; simp, List.Forall₂.cons (Or.inl rfl) hrel⟩

/-- C8 (amended).  Backend unavailability is persistent shell state, not
per-call state: a completion call never resets any `is_available` flag —
each provider leaves the call either untouched or with its flag cleared
(cleared exactly when it exhausted its retries), so a backend marked
unavailable by an earlier call is still considered unavailable (and is
skipped) at the start of every subsequent call on the same shell. -/
theorem C8_unavailability_persists (mr : Nat) (ps : List VProvider) :
    List.Forall₂ availOnlyCleared (call_llm_with_fallback mr ps).2 ps := by
  rw [call_llm_with_fallback]
  by_cases hemp : ps.isEmpty
  · simp only [hemp, if_true]
    exact List.forall₂_same.mpr (fun q _ => Or.inl rfl)
  · simp only [hemp, Bool.false_eq_true, if_false]
    obtain ⟨rest', heq, hrel⟩ := callLlmAux_availability mr ps [] ""
    simpa [heq] using hrel

/-- C8 (counterexample).  The claim says every configured backend is
considered available again at the start of each subsequent completion
call.  In the code, a backend that exhausts its retries has
`is_available = False` set on the shell's persistent provider list; a
second call skips it even when its client would now succeed, and returns
the all-failed message without a single attempt. -/
theorem C8_no_recovery_across_calls :
    (let p : VProvider :=
      ⟨"anthropic", 1, true, fun _ => Except.error "boom"⟩
    let out1 := call_llm_with_fallback 3 [p]
    out1.1 = "ANSWER: All LLM providers failed. Last error: boom" ∧
    out1.2.map VProvider.is_available = [false] ∧
    (call_llm_with_fallback 3
        (out1.2.map (fun q => { q with attempt := fun _ => Except.ok "recovered" }))).1
      = "ANSWER: All LLM providers failed. Last error: ") := by
  exact ⟨rfl, rfl, rfl⟩

/-- Helper: the ReAct loop makes at most `fuel` gateway calls. -/
theorem reactGo_calls_le (oracle : List (String × String) → String)
    (ex : Action → String) :
    ∀ (fuel : Nat) (messages : List (String × String)),
      (reactGo oracle ex fuel messages).2 ≤ fuel := by
  intro fuel
  induction fuel with
  | zero => intro messages; simp [reactGo]
  | succ n ih =>
      intro messages
      rw [reactGo]
      by_cases ha : (parse_llm_response (oracle messages)).truthyAnswer = true
      · simp [ha]
      · simp only [Bool.not_eq_true] at ha
        simp only [ha, Bool.false_eq_true, if_false]
        cases hact : (parse_llm_response (oracle messages)).action with
        | none => simp [hact]
        | some act =>
            cases hrec : reactGo oracle ex n
                (messages ++ [("assistant", oracle messages),
                  ("user", "OBSERVATION: " ++ ex act)]) with
            | mk r nCalls =>
                have hle := ih (messages ++ [("assistant", oracle messages),
                  ("user", "OBSERVATION: " ++ ex act)])
                rw [hrec] at hle
                simp only [hact, hrec]
                simpa using hle

/-- Helper: when every gateway response parses to a step with an action
and without a truthy answer, the loop burns its whole budget and ends with
the budget-exceeded message. -/
theorem reactGo_exhausts (oracle : List (String × String) → String)
    (ex : Action → String)
    (hstep : ∀ m, (parse_llm_response (oracle m)).truthyAnswer = false ∧
        (parse_llm_response (oracle m)).action.isSome = true) :
    ∀ (fuel : Nat) (messages : List (String × String)),
      reactGo oracle ex fuel messages =
        ("I took too many steps without reaching a conclusion. Please try a simpler request.",
         fuel) := by
  intro fuel
  induction fuel with
  | zero => intro messages; rfl
  | succ n ih =>
      intro messages
      obtain ⟨hans, hact⟩ := hstep messages
      rw [reactGo]
      simp only [hans, Bool.false_eq_true, if_false]
      cases hA : (parse_llm_response (oracle messages)).action with
      | none => rw [hA] at hact; simp at hact
      | some act =>
          simp only [hA]
          rw [ih (messages ++ [("assistant", oracle messages),
            ("user", "OBSERVATION: " ++ ex act)])]

/-- C9 (confirmed).  For every goal and every behaviour of the gateway and
the sandbox, the ReAct loop performs at most `MAX_STEPS` (6) gateway
calls; and whenever no response yields a truthy answer (every parsed step
carries an action), the loop exhausts its budget and terminates with the
budget-exceeded message — with exactly `MAX_STEPS` calls, never another
one. -/
theorem C9_step_budget (systemPrompt : String)
    (oracle : List (String × String) → String) (ex : Action → String)
    (cwd user_input : String) :
    (react systemPrompt oracle ex cwd user_input).2 ≤ MAX_STEPS ∧
    ((∀ m, (parse_llm_response (oracle m)).truthyAnswer = false ∧
        (parse_llm_response (oracle m)).action.isSome = true) →
      (pyStrip user_input == "") = false →
      react systemPrompt oracle ex cwd user_input =
        ("I took too many steps without reaching a conclusion. Please try a simpler request.",
         MAX_STEPS)) := by
  constructor
  · rw [react]
    cases h : (pyStrip user_input == "") with
    | true => simp [h]
    | false =>
        simp only [h, Bool.false_eq_true, if_false]
        exact reactGo_calls_le oracle ex MAX_STEPS _
  · intro hstep hne
    rw [react]
    simp only [hne, Bool.false_eq_true, if_false]
    exact reactGo_exhausts oracle ex hstep MAX_STEPS _

/-- C9 (witness).  A gateway that always answers `ACTION: shell(ls)` and a
sandbox that always observes "ok" drive the loop to the budget-exceeded
message after exactly `MAX_STEPS` calls. -/
theorem C9_step_budget_witness :
    react "prompt" (fun _ => "ACTION: shell(ls)") (fun _ => "ok") "/w" "list files"
      = ("I took too many steps without reaching a conclusion. Please try a simpler request.",
         MAX_STEPS) := by
  exact (C9_step_budget "prompt" (fun _ => "ACTION: shell(ls)") (fun _ => "ok")
    "/w" "list files").2 (fun m => ⟨rfl, rfl⟩) rfl

/-- Helper: agent selection fails exactly on an empty registry. -/
theorem find_agent_none_iff (agents : List SubAgentInfo) (agent_id : Option String)
    (ty : String) :
    find_agent agents agent_id ty = none ↔ agents = [] := by
  cases agents with
  | nil => cases agent_id <;> simp [find_agent]
  | cons a rest =>
      constructor
      · intro h
        exfalso
        rw [find_agent.eq_def] at h
        revert h
        cases agent_id with
        | none =>
            cases hf : (a :: rest).find? (fun x => x.agent_type == ty) with
            | some b => simp [hf]
            | none => simp [hf]
        | some aid =>
            by_cases he : (aid == "") = true
            · cases hf : (a :: rest).find? (fun x => x.agent_type == ty) with
              | some b => simp [he, hf]
              | none => simp [he, hf]
            · cases hd : (a :: rest).find? (fun x => x.id == aid) with
              | some b => simp [he, hd]
              | none =>
                  cases hf : (a :: rest).find? (fun x => x.agent_type == ty) with
                  | some b => simp [he, hd, hf]
                  | none => simp [he, hd, hf]
      · intro h
        exact absurd h (by simp)

/-- Helper: with no explicit agent id, selection is the first
type-matching agent, falling back to the first registered agent. -/
theorem find_agent_default_rule (a : SubAgentInfo) (rest : List SubAgentInfo)
    (ty : String) :
    find_agent (a :: rest) none ty
      = some (((a :: rest).find? (fun x => x.agent_type == ty)).getD a) := by
  rw [find_agent]
  cases hf : (a :: rest).find? (fun x => x.agent_type == ty) with
  | some b => simp [hf]
  | none => simp [hf]

/-- C10 (confirmed).  Whenever at least one agent is registered, every
dispatched task is assigned some executor — with no explicit agent id the
first registered agent whose `agent_type` matches the task's, else the
first registered agent of any type — and the "No suitable agent found"
failure branch is taken exactly when the orchestrator has zero registered
agents. -/
theorem C10_agent_selection (agents : List SubAgentInfo) (agent_id : Option String)
    (ty : String) :
    ((find_agent agents agent_id ty).isNone ↔ agents = []) ∧
    (execute_task_no_agent agents agent_id ty = true ↔ agents = []) ∧
    (∀ (a : SubAgentInfo) (rest : List SubAgentInfo), agents = a :: rest →
      find_agent agents none ty
        = some ((agents.find? (fun x => x.agent_type == ty)).getD a)) := by
  have h1 := find_agent_none_iff agents agent_id ty
  refine ⟨?_, ?_, ?_⟩
  · rw [Option.isNone_iff_eq_none]; exact h1
  · rw [execute_task_no_agent, Option.isNone_iff_eq_none]; exact h1
  · intro a rest h
    subst h
    exact find_agent_default_rule a rest ty

/-- C10 (witness).  With two registered agents, a "tester" task selects
the type-matching second agent; with zero agents the failure branch is
taken. -/
theorem C10_agent_selection_witness :
    find_agent [⟨"id1", "alpha", "coder"⟩, ⟨"id2", "beta", "tester"⟩] none "tester"
      = some ⟨"id2", "beta", "tester"⟩ ∧
    execute_task_no_agent [] none "tester" = true := by
  constructor
  · have h := (C10_agent_selection
      [⟨"id1", "alpha", "coder"⟩, ⟨"id2", "beta", "tester"⟩] none "tester").2.2
      ⟨"id1", "alpha", "coder"⟩ [⟨"id2", "beta", "tester"⟩] rfl
    rw [h]
    rfl
  · exact (C10_agent_selection [] none "tester").2.1.mpr rfl

end Astro
